import Mathlib

/-!
Shallow embedding of the persistent cross-instance listener coordinator
(src/lib/persistent-listener.ts) and its concrete use, the Discord gateway
keep-alive endpoint (src/app/api/discord/gateway/route.ts).

Conventions of the embedding:
- JavaScript numbers that can be NaN (the result of Number.parseInt) are
  modelled by the inductive JsNum; all other durations are Int.
- The caller-supplied run function is abstracted by its outcome, an
  Except String JsResponse: ok is a returned response, error is a thrown
  error carrying its message.
- The asynchronous coordination side channel is modelled operationally: a
  global interleaving of channel operations (subscribe, publish,
  unsubscribe) is a list of actions, and the channel delivers each publish
  to every currently subscribed session, including the publisher itself
  (Redis echoes a publish back to the publisher through its duplicate
  subscriber connection).
- The blocking wait of the side channel (lines 169-180) is modelled by the
  time at which the promise resolves, using the DOM/Node semantics of
  AbortSignal: an abort event listener registered after the signal has
  already aborted is never invoked.
-/

/-- A JavaScript number as it arises in the listener code: NaN (from
Number.parseInt applied to a digit-free string) or an integer. -/
inductive JsNum where
  | nan : JsNum
  | int : Int → JsNum
deriving DecidableEq, Repr

/-- Math.min on two JsNum values: NaN propagates, otherwise the smaller value. -/
def jsMin : JsNum → JsNum → JsNum
  | JsNum.nan, _ => JsNum.nan
  | JsNum.int _, JsNum.nan => JsNum.nan
  | JsNum.int a, JsNum.int b => JsNum.int (min a b)

/-- Integer value of a run of decimal digits. -/
def digitsVal (cs : List Char) : Int :=
  cs.foldl (fun acc c => acc * 10 + Int.ofNat (c.toNat - 48)) 0

/-- Number.parseInt(s, 10): skip leading whitespace, read an optional sign,
then a maximal run of decimal digits; NaN when that run is empty. -/
def parseIntJs (s : String) : JsNum :=
  let cs := s.toList.dropWhile (fun c => c == ' ' || c == '\t' || c == '\n' || c == '\r')
  let signed : Int × List Char :=
    match cs with
    | '-' :: r => (-1, r)
    | '+' :: r => (1, r)
    | r => (1, r)
  let ds := signed.2.takeWhile Char.isDigit
  if ds.isEmpty then JsNum.nan else JsNum.int (signed.1 * digitsVal ds)

/-- Configuration for a persistent listener
(persistent-listener.ts lines 6-15). -/
structure PersistentListenerConfig where
  defaultDurationMs : Int
  maxDurationMs : Int
  name : String
  redisUrl : Option String
deriving DecidableEq, Repr

/-- The duration query parameter as the start operation reads it (lines
85-89): an absent parameter, or the empty string (falsy in JavaScript),
yields undefined; any other raw value is passed to Number.parseInt. -/
def getRequestedDuration : Option String → Option JsNum
  | none => none
  | some s => if s = "" then none else some (parseIntJs s)

/-- Effective run duration computed by start (lines 90-93):
Math.min(requestedDuration ?? defaultDurationMs, maxDurationMs). -/
def effectiveDurationMs (cfg : PersistentListenerConfig) (requested : Option JsNum) : JsNum :=
  jsMin (requested.getD (JsNum.int cfg.defaultDurationMs)) (JsNum.int cfg.maxDurationMs)

/-- Whether a JsNum lies in the closed interval from lo to hi;
NaN lies in no interval. -/
def jsInRange (lo hi : Int) : JsNum → Bool
  | JsNum.nan => false
  | JsNum.int n => decide (lo ≤ n ∧ n ≤ hi)

/-- Body of an HTTP response: plain text, a JSON error object with a stable
error tag and a message (the shape built at lines 122-126), or an opaque
body produced by the platform connection. -/
inductive Body where
  | text : String → Body
  | jsonError : (errorTag : String) → (message : String) → Body
  | opaque_ : String → Body
deriving DecidableEq, Repr

/-- An HTTP response as the coordinator produces it. -/
structure JsResponse where
  status : Nat
  body : Body
  contentType : Option String
deriving DecidableEq, Repr

/-- Outcome mapping of start (lines 111-132): a run function that returns a
response yields that response unchanged; a run function that throws is
caught, and start returns a 500 response whose JSON body carries the stable
error tag "Failed to run NAME listener" and the message of the thrown
error. The function is total: no run outcome escapes as an unhandled fault. -/
def startRun (cfg : PersistentListenerConfig) (runOutcome : Except String JsResponse) :
    JsResponse :=
  match runOutcome with
  | Except.ok r => r
  | Except.error msg =>
      { status := 500
        body := Body.jsonError ("Failed to run " ++ cfg.name ++ " listener") msg
        contentType := some "application/json" }

/-- Subscription callback installed at lines 153-163, acting on the aborted
flag of the AbortController: a message equal to the own listenerId is
ignored, any other message calls abortController.abort(), after which the
flag is true. -/
def handleMessage (listenerId message : String) (aborted : Bool) : Bool :=
  if message = listenerId then aborted else true

/-- Injected outcomes of the Redis operations of one side-channel task, plus
the control messages delivered to its subscription while it is active. -/
structure RedisEnv where
  connectOk : Bool
  subscribeOk : Bool
  publishOk : Bool
  cleanupOk : Bool
  delivered : List String
deriving DecidableEq, Repr

/-- The fallible body of setupRedisPubSub (lines 150-180) as an Except
pipeline: connect both clients, subscribe, publish, then the blocking wait,
during which the subscription callback processes every delivered message.
On success it returns the final aborted flag of the AbortController. -/
def pubSubBody (lid : String) (env : RedisEnv) : Except String Bool :=
  if env.connectOk = false then Except.error "connect failed"
  else if env.subscribeOk = false then Except.error "subscribe failed"
  else if env.publishOk = false then Except.error "publish failed"
  else Except.ok (env.delivered.foldl (fun st m => handleMessage lid m st) false)

/-- Observable outcome of one side-channel task. -/
structure SideOutcome where
  aborted : Bool
  errorLogged : Bool
  cleanupRan : Bool
deriving DecidableEq, Repr

/-- setupRedisPubSub (lines 139-191): the body runs under try/catch/finally.
Any error thrown by the body is caught and logged (line 182); the finally
block (lines 183-189) always runs the cleanup, and failures of the cleanup
itself (cleanupOk = false) are swallowed by the attached catch handlers.
The returned promise always resolves; it never rejects. -/
def setupRedisPubSub (lid : String) (env : RedisEnv) : SideOutcome :=
  match pubSubBody lid env with
  | Except.ok ab => { aborted := ab, errorLogged := false, cleanupRan := true }
  | Except.error _ => { aborted := false, errorLogged := true, cleanupRan := true }

/-- JavaScript truthiness test of config.redisUrl at line 99: the side task
is scheduled only when redisUrl is present and nonempty. -/
def coordinationScheduled (cfg : PersistentListenerConfig) : Bool :=
  match cfg.redisUrl with
  | none => false
  | some u => !(u == "")

/-- One whole invocation of start (lines 64-133): the primary response from
the run outcome, and the side-channel outcome when a task was scheduled at
lines 99-109. The response component is computed only from the run
outcome; start never reads anything back from the side task. -/
def startInvocation (cfg : PersistentListenerConfig) (lid : String) (env : RedisEnv)
    (runOutcome : Except String JsResponse) : JsResponse × Option SideOutcome :=
  (startRun cfg runOutcome,
   if coordinationScheduled cfg then some (setupRedisPubSub lid env) else none)

/-- Whether the abort signal of the invocation has fired: the only writer of
the AbortController created at line 96 is the subscription callback of the
coordination side task. -/
def abortFired (cfg : PersistentListenerConfig) (lid : String) (env : RedisEnv) : Bool :=
  if coordinationScheduled cfg then (setupRedisPubSub lid env).aborted else false

/-- Listener configuration built by the gateway route
(route.ts lines 8-19). -/
def DEFAULT_DURATION_MS : Int := 600 * 1000

/-- The persistent listener created for the Discord gateway
(route.ts lines 14-19). -/
def discordGatewayConfig (redisUrl : Option String) : PersistentListenerConfig :=
  { name := "discord-gateway"
    redisUrl := redisUrl
    defaultDurationMs := DEFAULT_DURATION_MS
    maxDurationMs := DEFAULT_DURATION_MS }

/-- Process environment and request data read by the gateway GET handler. -/
structure GatewayEnv where
  cronSecret : Option String
  authHeader : Option String
  discordConfigured : Bool
  redisUrl : Option String
deriving DecidableEq, Repr

/-- The GET handler of route.ts lines 37-98: the check at line 40 is the
JavaScript truthiness test of cronSecret, so both an unset and an
empty-string CRON_SECRET yield the plain-text 500; an authorization header
different from "Bearer SECRET" yields a plain-text 401; a missing Discord
adapter yields a 404; otherwise the handler returns the response of
discordGateway.start applied to the run function (bot.initialize is assumed
to resolve). -/
def gatewayGET (env : GatewayEnv) (runOutcome : Except String JsResponse) : JsResponse :=
  match env.cronSecret with
  | none =>
      { status := 500, body := Body.text "CRON_SECRET not configured", contentType := none }
  | some secret =>
      if secret = "" then
        { status := 500, body := Body.text "CRON_SECRET not configured", contentType := none }
      else if env.authHeader ≠ some ("Bearer " ++ secret) then
        { status := 401, body := Body.text "Unauthorized", contentType := none }
      else if env.discordConfigured = false then
        { status := 404, body := Body.text "Discord adapter not configured", contentType := none }
      else
        startRun (discordGatewayConfig env.redisUrl) runOutcome

/-- A channel operation of one session: subscribe (line 153), publish of the
own listenerId (line 166), unsubscribe (line 184). -/
inductive Op where
  | sub : Op
  | pub : Op
  | unsub : Op
deriving DecidableEq, Repr

/-- One channel action in a global interleaving: the acting session,
identified by its listenerId, and the operation it performs. A publish
always carries the publishing session's own listenerId as the message. -/
structure ChanAction where
  sid : String
  op : Op
deriving DecidableEq, Repr

/-- Effect of one action on the set of subscribed sessions. -/
def subsStep (subs : List String) (a : ChanAction) : List String :=
  match a.op with
  | Op.sub => a.sid :: subs
  | Op.unsub => subs.filter (fun s => !(s == a.sid))
  | Op.pub => subs

/-- Subscribed sessions after a run of actions. -/
def subsAfter (t : List ChanAction) (subs : List String) : List String :=
  t.foldl subsStep subs

/-- Deliveries produced by a run of channel actions: each publish is
delivered as a pair (receiver, message) to every session subscribed at that
moment, including the publisher itself. -/
def chanRun : List ChanAction → List String → List (String × String)
  | [], _ => []
  | a :: rest, subs =>
      (match a.op with
       | Op.pub => subs.map (fun r => (r, a.sid))
       | _ => []) ++ chanRun rest (subsStep subs a)

/-- Messages delivered to one receiving session, in order. -/
def messagesTo (r : String) (ds : List (String × String)) : List String :=
  (ds.filter (fun p => p.1 == r)).map (fun p => p.2)

/-- Aborted flag of a session after its subscription callback has processed
every message delivered to it. -/
def abortedAfter (r : String) (ds : List (String × String)) : Bool :=
  (messagesTo r ds).foldl (fun st m => handleMessage r m st) false

/-- Program order of the channel operations performed by setupRedisPubSub
for one session on its success path: subscribe at line 153 is awaited
before publish at line 166, and unsubscribe at line 184 runs in the finally
block. -/
def sessionOps (lid : String) : List ChanAction :=
  [{ sid := lid, op := Op.sub }, { sid := lid, op := Op.pub }, { sid := lid, op := Op.unsub }]

/-- Resolution time of the blocking wait (lines 169-180), measured from the
moment the promise executor runs setTimeout and addEventListener. abortAt
is the time at which abortController.abort() is called, relative to that
moment, none if it is never called. DOM AbortSignal semantics: the abort
event listener fires only when abort happens at or after registration
(0 ≤ abortAt); a signal that aborted before the wait began (abortAt < 0)
never invokes a listener added later, so only the setTimeout of
durationMs + 5000 resolves the promise. -/
def waitEndTime (durationMs : Int) (abortAt : Option Int) : Int :=
  match abortAt with
  | none => durationMs + 5000
  | some t => if 0 ≤ t then min t (durationMs + 5000) else durationMs + 5000

/-- A sample environment in which every Redis operation succeeds and one
control message from another session is delivered. -/
def sampleEnv : RedisEnv :=
  { connectOk := true
    subscribeOk := true
    publishOk := true
    cleanupOk := true
    delivered := ["peer-1"] }

/-- A sample environment in which the Redis connection fails. -/
def sampleEnvDown : RedisEnv :=
  { sampleEnv with connectOk := false }

/-- A sample response produced by the platform connection. -/
def sampleResponse : JsResponse :=
  { status := 200, body := Body.opaque_ "Listener completed", contentType := none }

/-- Gateway environment sample: missing CRON_SECRET. -/
def envNoSecret : GatewayEnv :=
  { cronSecret := none, authHeader := none, discordConfigured := true, redisUrl := none }

/-- Gateway environment sample: CRON_SECRET set to the empty string, which
is falsy in JavaScript, with a header that matches Bearer plus the empty
secret. -/
def envEmptySecret : GatewayEnv :=
  { cronSecret := some "", authHeader := some "Bearer "
    discordConfigured := true, redisUrl := none }

/-- Gateway environment sample: wrong bearer credential. -/
def envBadAuth : GatewayEnv :=
  { cronSecret := some "s3", authHeader := some "Bearer wrong"
    discordConfigured := true, redisUrl := none }

/-- Gateway environment sample: correct credential, Discord adapter missing. -/
def envNoDiscord : GatewayEnv :=
  { cronSecret := some "s3", authHeader := some "Bearer s3"
    discordConfigured := false, redisUrl := none }

/-- Gateway environment sample: correct credential, Discord adapter present. -/
def envReady : GatewayEnv :=
  { cronSecret := some "s3", authHeader := some "Bearer s3"
    discordConfigured := true, redisUrl := none }

/-- Running the subscription callback over a list of messages fires the abort
flag exactly when the starting flag was set or some message differs from the
own listenerId. -/
theorem foldl_handleMessage (lid : String) (l : List String) (st : Bool) :
    l.foldl (fun ab m => handleMessage lid m ab) st =
      (st || l.any (fun m => !(m == lid))) := by
  induction l generalizing st with
  | nil => simp
  | cons m rest ih =>
      rw [List.foldl_cons, ih]
      by_cases h : m = lid
      · simp [handleMessage, h]
      · simp [handleMessage, h]

/-- Unfolding lemma: subscription state after one action then a run. -/
theorem subsAfter_cons (a : ChanAction) (t : List ChanAction) (s : List String) :
    subsAfter (a :: t) s = subsAfter t (subsStep s a) := rfl

/-- Subscription state composes over concatenated runs. -/
theorem subsAfter_append (x y : List ChanAction) (s : List String) :
    subsAfter (x ++ y) s = subsAfter y (subsAfter x s) := by
  simp [subsAfter, List.foldl_append]

/-- Unfolding lemma for chanRun on a cons cell. -/
theorem chanRun_cons (a : ChanAction) (rest : List ChanAction) (subs : List String) :
    chanRun (a :: rest) subs =
      (match a.op with
       | Op.pub => subs.map (fun r => (r, a.sid))
       | _ => []) ++ chanRun rest (subsStep subs a) := rfl

/-- Deliveries compose over concatenated runs of channel actions. -/
theorem chanRun_append (x y : List ChanAction) (s : List String) :
    chanRun (x ++ y) s = chanRun x s ++ chanRun y (subsAfter x s) := by
  induction x generalizing s with
  | nil => simp [chanRun, subsAfter]
  | cons a rest ih =>
      simp only [List.cons_append, chanRun_cons, ih, subsAfter_cons, List.append_assoc]

/-- A subscribed session stays subscribed over any run of actions that
contains no unsubscribe of its own. -/
theorem mem_subsAfter (a : String) (t : List ChanAction) (s : List String)
    (hs : a ∈ s) (hu : ChanAction.mk a Op.unsub ∉ t) : a ∈ subsAfter t s := by
  induction t generalizing s with
  | nil => exact hs
  | cons act rest ih =>
      have hu2 : ChanAction.mk a Op.unsub ∉ rest := fun hm => hu (List.mem_cons_of_mem _ hm)
      rw [subsAfter_cons]
      refine ih (subsStep s act) ?_ hu2
      obtain ⟨i, o⟩ := act
      cases o with
      | sub => exact List.mem_cons_of_mem _ hs
      | pub => exact hs
      | unsub =>
          have hne : a ≠ i := by
            intro he
            exact hu (by rw [he]; exact List.mem_cons_self _ _)
          exact List.mem_filter.mpr ⟨hs, by simp [hne]⟩

/-- Messages delivered to one receiver split over concatenated deliveries. -/
theorem messagesTo_append (r : String) (x y : List (String × String)) :
    messagesTo r (x ++ y) = messagesTo r x ++ messagesTo r y := by
  simp [messagesTo, List.filter_append]

/-- The aborted flag after processing a delivery list equals: some message
delivered to the session differs from its own listenerId. -/
theorem abortedAfter_eq_any (r : String) (ds : List (String × String)) :
    abortedAfter r ds = (messagesTo r ds).any (fun m => !(m == r)) := by
  unfold abortedAfter
  rw [foldl_handleMessage]
  simp

/-- A publish delivered to a subscribed receiver shows up among the messages
delivered to that receiver. -/
theorem mem_messagesTo_pub (r b : String) (s : List String) (h : r ∈ s) :
    b ∈ messagesTo r (s.map (fun x => (x, b))) := by
  unfold messagesTo
  refine List.mem_map.mpr ⟨(r, b), ?_, rfl⟩
  exact List.mem_filter.mpr ⟨List.mem_map.mpr ⟨r, h, rfl⟩, by simp⟩

/-- When any of the Redis connect, subscribe, or publish steps fails, the
side-channel body ends in a thrown error. -/
theorem pubSubBody_error_of_failure (lid : String) (env : RedisEnv)
    (h : env.connectOk = false ∨ env.subscribeOk = false ∨ env.publishOk = false) :
    ∃ e, pubSubBody lid env = Except.error e := by
  unfold pubSubBody
  by_cases h1 : env.connectOk = false
  · exact ⟨_, by rw [if_pos h1]⟩
  · by_cases h2 : env.subscribeOk = false
    · exact ⟨_, by rw [if_neg h1, if_pos h2]⟩
    · by_cases h3 : env.publishOk = false
      · exact ⟨_, by rw [if_neg h1, if_neg h2, if_pos h3]⟩
      · rcases h with h | h | h
        · exact absurd h h1
        · exact absurd h h2
        · exact absurd h h3

/-- The finally block runs on every path of the side-channel task. -/
theorem setupRedisPubSub_cleanupRan (lid : String) (env : RedisEnv) :
    (setupRedisPubSub lid env).cleanupRan = true := by
  unfold setupRedisPubSub
  cases pubSubBody lid env <;> rfl

/-- C1: for every invocation of the start operation, the effective run
duration equals min(d, maxDurationMs) when a requested duration d is
supplied, and min(defaultDurationMs, maxDurationMs) when no duration is
supplied. -/
theorem effective_duration_min (cfg : PersistentListenerConfig) (d : Int) :
    effectiveDurationMs cfg (some (JsNum.int d)) = JsNum.int (min d cfg.maxDurationMs) ∧
    effectiveDurationMs cfg none = JsNum.int (min cfg.defaultDurationMs cfg.maxDurationMs) :=
  ⟨rfl, rfl⟩

/-- C2: a message received on the coordination channel that equals the
own listenerId of the session is ignored by the subscription callback: the
aborted flag of the cancellation signal is left exactly as it was, so the
signal is never fired in response to a self-announcement echo. -/
theorem self_echo_ignored (lid : String) (aborted : Bool) :
    handleMessage lid lid aborted = aborted := by
  simp [handleMessage]

/-- C5: for every invocation of start, a run function that throws yields a
returned (not thrown) 500 response whose JSON body carries the stable error
tag "Failed to run NAME listener" and the message of the thrown error,
while a run function that returns yields its response unchanged; startRun
is total, so the error never escapes to the caller. -/
theorem run_error_mapped_to_500 (cfg : PersistentListenerConfig) (msg : String)
    (r : JsResponse) :
    startRun cfg (Except.error msg) =
      { status := 500
        body := Body.jsonError ("Failed to run " ++ cfg.name ++ " listener") msg
        contentType := some "application/json" } ∧
    startRun cfg (Except.ok r) = r :=
  ⟨rfl, rfl⟩

/-- C8, counterexample: the requested duration -1 parsed from the trigger of
the Discord gateway listener produces the effective duration -1, which lies
outside the interval from 0 to maxDurationMs, refuting the claim that every
effective duration lies in that interval. -/
theorem effective_duration_below_zero :
    effectiveDurationMs (discordGatewayConfig none) (getRequestedDuration (some "-1")) =
      JsNum.int (-1) ∧
    jsInRange 0 (discordGatewayConfig none).maxDurationMs
      (effectiveDurationMs (discordGatewayConfig none) (getRequestedDuration (some "-1"))) =
      false := by
  constructor <;> decide

/-- C8, amended: the effective duration is only clamped from above: whenever
it is a number at all (a non-numeric requested duration yields NaN), it is
at most maxDurationMs; there is no lower clamp at 0, so a negative
requested duration passes through. -/
theorem effective_duration_at_most_max (cfg : PersistentListenerConfig)
    (requested : Option JsNum) (n : Int)
    (h : effectiveDurationMs cfg requested = JsNum.int n) :
    n ≤ cfg.maxDurationMs := by
  unfold effectiveDurationMs at h
  cases hq : requested.getD (JsNum.int cfg.defaultDurationMs) with
  | nan => rw [hq] at h; simp [jsMin] at h
  | int a =>
      rw [hq] at h
      simp only [jsMin, JsNum.int.injEq] at h
      omega

/-- Witness for the amended C8 theorem at the concrete request duration -1. -/
theorem effective_duration_at_most_max_witness :
    (-1 : Int) ≤ (discordGatewayConfig none).maxDurationMs :=
  effective_duration_at_most_max (discordGatewayConfig none)
    (getRequestedDuration (some "-1")) (-1) (by decide)

/-- C9, counterexample: with durationMs 600000 and the abort signal fired
one millisecond before the blocking wait begins, the wait resolves only
after the full 605000 millisecond timeout instead of ending immediately,
refuting the claim that an already-fired signal ends the wait at once: the
abort event listener added by the promise executor is never invoked for a
signal that aborted before registration. -/
theorem wait_not_immediate_when_already_aborted :
    waitEndTime 600000 (some (-1)) = 600000 + 5000 ∧
    waitEndTime 600000 (some (-1)) ≠ 0 := by
  constructor <;> decide

/-- C9, amended: the blocking wait ends at the earlier of the signal firing
and durationMs + 5000 elapsing, provided the signal fires at or after the
moment the wait begins; a signal that fired strictly before the wait began
is not observed, and the wait then runs the full durationMs + 5000, as it
does when the signal never fires. -/
theorem wait_end_race (d t : Int) :
    (0 ≤ t → waitEndTime d (some t) = min t (d + 5000)) ∧
    (t < 0 → waitEndTime d (some t) = d + 5000) ∧
    waitEndTime d none = d + 5000 := by
  refine ⟨fun h => ?_, fun h => ?_, rfl⟩
  · show (if 0 ≤ t then min t (d + 5000) else d + 5000) = min t (d + 5000)
    rw [if_pos h]
  · show (if 0 ≤ t then min t (d + 5000) else d + 5000) = d + 5000
    rw [if_neg (by omega)]

/-- Witness for the amended C9 theorem at concrete abort times 1000 and -5. -/
theorem wait_end_race_witness :
    waitEndTime 600000 (some 1000) = min 1000 (600000 + 5000) ∧
    waitEndTime 600000 (some (-5)) = 600000 + 5000 :=
  ⟨(wait_end_race 600000 1000).1 (by decide), (wait_end_race 600000 (-5)).2.1 (by decide)⟩

/-- C10: the cancellation signal of an invocation is fired only by the
subscription callback of the coordination side task, and only upon receipt
of a message different from the own listenerId; when no redisUrl is
configured, no coordination task is scheduled and the signal never fires
during the invocation. -/
theorem abort_only_from_subscription (cfg : PersistentListenerConfig) (lid : String)
    (env : RedisEnv) :
    (cfg.redisUrl = none →
      coordinationScheduled cfg = false ∧ abortFired cfg lid env = false) ∧
    (abortFired cfg lid env = true → ∃ m ∈ env.delivered, m ≠ lid) := by
  constructor
  · intro h
    have hc : coordinationScheduled cfg = false := by
      simp [coordinationScheduled, h]
    exact ⟨hc, by simp [abortFired, hc]⟩
  · intro h
    unfold abortFired at h
    by_cases hc : coordinationScheduled cfg = true
    · rw [if_pos hc] at h
      unfold setupRedisPubSub at h
      cases hb : pubSubBody lid env with
      | error e => rw [hb] at h; simp at h
      | ok ab =>
          rw [hb] at h
          simp only at h
          unfold pubSubBody at hb
          by_cases h1 : env.connectOk = false
          · rw [if_pos h1] at hb; exact absurd hb (by simp)
          · rw [if_neg h1] at hb
            by_cases h2 : env.subscribeOk = false
            · rw [if_pos h2] at hb; exact absurd hb (by simp)
            · rw [if_neg h2] at hb
              by_cases h3 : env.publishOk = false
              · rw [if_pos h3] at hb; exact absurd hb (by simp)
              · rw [if_neg h3] at hb
                have hab : env.delivered.foldl (fun ab m => handleMessage lid m ab) false = ab := by
                  exact Except.ok.inj hb
                rw [h] at hab
                rw [foldl_handleMessage] at hab
                simp only [Bool.false_or] at hab
                obtain ⟨m, hm, hmp⟩ := List.any_eq_true.mp hab
                exact ⟨m, hm, by simpa using hmp⟩
    · rw [if_neg hc] at h
      exact absurd h (by simp)

/-- Witness for C10 at a concrete configuration without Redis, and at one
with Redis where the delivered message "peer-1" differs from the
listenerId. -/
theorem abort_only_from_subscription_witness :
    (coordinationScheduled (discordGatewayConfig none) = false ∧
      abortFired (discordGatewayConfig none) "lid-a" sampleEnv = false) ∧
    ∃ m ∈ sampleEnv.delivered, m ≠ "lid-a" :=
  ⟨(abort_only_from_subscription (discordGatewayConfig none) "lid-a" sampleEnv).1 rfl,
   (abort_only_from_subscription (discordGatewayConfig (some "redis://host")) "lid-a"
      sampleEnv).2 (by decide)⟩

/-- C6: when the coordination backing store is unreachable (connect,
subscribe, or publish fails), the invocation still reaches its terminal
outcome determined solely by the run outcome: the primary response equals
startRun of the run outcome, is independent of the Redis environment, the
side-channel task catches and logs the coordination error, its finally
cleanup always runs, and a failing cleanup changes nothing. -/
theorem coordination_failure_isolated (cfg : PersistentListenerConfig) (lid : String)
    (env env2 : RedisEnv) (run : Except String JsResponse)
    (h : env.connectOk = false ∨ env.subscribeOk = false ∨ env.publishOk = false) :
    (startInvocation cfg lid env run).1 = startRun cfg run ∧
    (startInvocation cfg lid env run).1 = (startInvocation cfg lid env2 run).1 ∧
    (setupRedisPubSub lid env).errorLogged = true ∧
    (setupRedisPubSub lid env).cleanupRan = true ∧
    setupRedisPubSub lid { env with cleanupOk := false } =
      setupRedisPubSub lid { env with cleanupOk := true } := by
  refine ⟨rfl, rfl, ?_, setupRedisPubSub_cleanupRan lid env, rfl⟩
  obtain ⟨e, he⟩ := pubSubBody_error_of_failure lid env h
  unfold setupRedisPubSub
  rw [he]

/-- Witness for C6 with a failing Redis connection and a successful run. -/
theorem coordination_failure_isolated_witness :
    (startInvocation (discordGatewayConfig (some "redis://host")) "lid-a" sampleEnvDown
        (Except.ok sampleResponse)).1 =
      startRun (discordGatewayConfig (some "redis://host")) (Except.ok sampleResponse) ∧
    (setupRedisPubSub "lid-a" sampleEnvDown).errorLogged = true := by
  have h := coordination_failure_isolated (discordGatewayConfig (some "redis://host")) "lid-a"
    sampleEnvDown sampleEnv (Except.ok sampleResponse) (Or.inl rfl)
  exact ⟨h.1, h.2.2.1⟩

/-- C7: the gateway GET endpoint responds 500 when the shared-secret
configuration is missing, where missing is the JavaScript falsy test of
line 40, so both an unset and an empty-string CRON_SECRET count; with a
truthy secret it responds 401 with a plain-text body when the authorization
header differs from Bearer plus the secret, 404 when the Discord adapter is
unconfigured, and otherwise returns exactly the response the coordinator
produces from the platform connection run. -/
theorem gateway_dispatch (env : GatewayEnv) (run : Except String JsResponse) :
    (env.cronSecret = none ∨ env.cronSecret = some "" →
      gatewayGET env run =
        { status := 500, body := Body.text "CRON_SECRET not configured",
          contentType := none }) ∧
    (∀ secret, env.cronSecret = some secret → secret ≠ "" →
      env.authHeader ≠ some ("Bearer " ++ secret) →
      gatewayGET env run =
        { status := 401, body := Body.text "Unauthorized", contentType := none }) ∧
    (∀ secret, env.cronSecret = some secret → secret ≠ "" →
      env.authHeader = some ("Bearer " ++ secret) →
      env.discordConfigured = false →
      gatewayGET env run =
        { status := 404, body := Body.text "Discord adapter not configured",
          contentType := none }) ∧
    (∀ secret, env.cronSecret = some secret → secret ≠ "" →
      env.authHeader = some ("Bearer " ++ secret) →
      env.discordConfigured = true →
      gatewayGET env run = startRun (discordGatewayConfig env.redisUrl) run) := by
  refine ⟨fun h => ?_, fun s hs hne ha => ?_, fun s hs hne ha hd => ?_,
    fun s hs hne ha hd => ?_⟩
  · rcases h with h | h
    · simp [gatewayGET, h]
    · simp [gatewayGET, h]
  · simp [gatewayGET, hs, hne, ha]
  · simp [gatewayGET, hs, hne, ha, hd]
  · simp [gatewayGET, hs, hne, ha, hd]

/-- Witness for C7 at five concrete gateway environments, covering the unset
secret, the empty-string secret, the wrong credential, the missing adapter,
and the success path. -/
theorem gateway_dispatch_witness :
    gatewayGET envNoSecret (Except.ok sampleResponse) =
      { status := 500, body := Body.text "CRON_SECRET not configured",
        contentType := none } ∧
    gatewayGET envEmptySecret (Except.ok sampleResponse) =
      { status := 500, body := Body.text "CRON_SECRET not configured",
        contentType := none } ∧
    gatewayGET envBadAuth (Except.ok sampleResponse) =
      { status := 401, body := Body.text "Unauthorized", contentType := none } ∧
    gatewayGET envNoDiscord (Except.ok sampleResponse) =
      { status := 404, body := Body.text "Discord adapter not configured",
        contentType := none } ∧
    gatewayGET envReady (Except.ok sampleResponse) =
      startRun (discordGatewayConfig envReady.redisUrl) (Except.ok sampleResponse) :=
  ⟨(gateway_dispatch envNoSecret (Except.ok sampleResponse)).1 (Or.inl rfl),
   (gateway_dispatch envEmptySecret (Except.ok sampleResponse)).1 (Or.inr rfl),
   (gateway_dispatch envBadAuth (Except.ok sampleResponse)).2.1 "s3" rfl (by decide)
     (by decide),
   (gateway_dispatch envNoDiscord (Except.ok sampleResponse)).2.2.1 "s3" rfl (by decide)
     (by decide) rfl,
   (gateway_dispatch envReady (Except.ok sampleResponse)).2.2.2 "s3" rfl (by decide)
     (by decide) rfl⟩

/-- C3: in the side channel of every session, the publish of the own
announcement happens only after the subscription is active: in the program
order of setupRedisPubSub the subscribe comes strictly before the publish,
and consequently, in every interleaving in which a later-starting session
performs its subscribe and then its publish after the first session
subscribed, while the first session has not unsubscribed, the first
session's subscription receives the announcement of the later-starting
session. -/
theorem publish_after_subscribe (a b : String) (pre mid1 mid2 post : List ChanAction)
    (hu1 : ChanAction.mk a Op.unsub ∉ mid1) (hu2 : ChanAction.mk a Op.unsub ∉ mid2) :
    ((sessionOps a)[0]? = some (ChanAction.mk a Op.sub) ∧
      (sessionOps a)[1]? = some (ChanAction.mk a Op.pub)) ∧
    (a, b) ∈ chanRun
      (pre ++ [ChanAction.mk a Op.sub] ++ mid1 ++ [ChanAction.mk b Op.sub] ++ mid2 ++
        [ChanAction.mk b Op.pub] ++ post) [] := by
  refine ⟨⟨rfl, rfl⟩, ?_⟩
  have hS : a ∈ subsAfter
      (pre ++ [ChanAction.mk a Op.sub] ++ mid1 ++ [ChanAction.mk b Op.sub] ++ mid2) [] := by
    rw [subsAfter_append, subsAfter_append, subsAfter_append, subsAfter_append]
    refine mem_subsAfter a mid2 _ ?_ hu2
    refine List.mem_cons_of_mem _ ?_
    exact mem_subsAfter a mid1 _ (List.mem_cons_self a _) hu1
  rw [chanRun_append, chanRun_append]
  refine List.mem_append.mpr (Or.inl (List.mem_append.mpr (Or.inr ?_)))
  have hrun : chanRun [ChanAction.mk b Op.pub]
      (subsAfter
        (pre ++ [ChanAction.mk a Op.sub] ++ mid1 ++ [ChanAction.mk b Op.sub] ++ mid2) []) =
      (subsAfter
        (pre ++ [ChanAction.mk a Op.sub] ++ mid1 ++ [ChanAction.mk b Op.sub] ++ mid2)
        []).map (fun r => (r, b)) := by
    simp [chanRun_cons, chanRun]
  rw [hrun]
  exact List.mem_map.mpr ⟨a, hS, rfl⟩

/-- Witness for C3 with two concrete sessions A and B and the minimal
interleaving. -/
theorem publish_after_subscribe_witness :
    ((sessionOps "A")[0]? = some (ChanAction.mk "A" Op.sub) ∧
      (sessionOps "A")[1]? = some (ChanAction.mk "A" Op.pub)) ∧
    ("A", "B") ∈ chanRun
      ([] ++ [ChanAction.mk "A" Op.sub] ++ [] ++ [ChanAction.mk "B" Op.sub] ++ [] ++
        [ChanAction.mk "B" Op.pub] ++ []) [] :=
  publish_after_subscribe "A" "B" [] [] [] [] (by decide) (by decide)

/-- C4: for two sessions A then B on the same listener name, with A
subscribed at the moment B publishes an announcement carrying a listenerId
different from A, processing the publish delivers the announcement to A and
fires A's cancellation signal at that very point of the interleaving, hence
strictly before every later event, in particular before the completion of
B's run. -/
theorem newest_wins_eviction (a b : String) (pre post : List ChanAction)
    (hab : a ≠ b) (hsub : a ∈ subsAfter pre []) :
    abortedAfter a (chanRun (pre ++ [ChanAction.mk b Op.pub]) []) = true ∧
    abortedAfter a (chanRun (pre ++ [ChanAction.mk b Op.pub] ++ post) []) = true := by
  have h1 : abortedAfter a (chanRun (pre ++ [ChanAction.mk b Op.pub]) []) = true := by
    rw [chanRun_append, abortedAfter_eq_any, messagesTo_append, List.any_append]
    rw [Bool.or_eq_true]
    refine Or.inr ?_
    refine List.any_eq_true.mpr ⟨b, ?_, by simp [Ne.symm hab]⟩
    have hrun : chanRun [ChanAction.mk b Op.pub] (subsAfter pre []) =
        (subsAfter pre []).map (fun r => (r, b)) := by
      simp [chanRun_cons, chanRun]
    rw [hrun]
    exact mem_messagesTo_pub a b (subsAfter pre []) hsub
  refine ⟨h1, ?_⟩
  rw [chanRun_append, abortedAfter_eq_any, messagesTo_append, List.any_append]
  rw [Bool.or_eq_true]
  refine Or.inl ?_
  rw [← abortedAfter_eq_any]
  exact h1

/-- Witness for C4 with concrete sessions A and B. -/
theorem newest_wins_eviction_witness :
    abortedAfter "A"
      (chanRun ([ChanAction.mk "A" Op.sub] ++ [ChanAction.mk "B" Op.pub]) []) = true ∧
    abortedAfter "A"
      (chanRun ([ChanAction.mk "A" Op.sub] ++ [ChanAction.mk "B" Op.pub] ++ []) []) = true :=
  newest_wins_eviction "A" "B" [ChanAction.mk "A" Op.sub] [] (by decide) (by decide)
